import Mathlib

/-!
Verification development for the core signing / shield-proof subsystem of the
repository (src/rust_py/tos_signer/src/lib.rs).

Modelling conventions:

* `Scalar` is the Ristretto scalar field `ZMod ℓ` with
  `ℓ = 2^252 + 27742317777372353535851937790883648493` (the curve25519 group
  order).  `Scalar::from_bytes_mod_order` / `_wide` are little-endian value
  reduction mod `ℓ`; `Scalar::invert` (dalek) is modelled as exponentiation by
  `ℓ - 2`, exactly the Montgomery-exponentiation the crate performs.
* `Point` is the free module `Scalar × Scalar` over the two fixed Pedersen
  generators: `(a, b)` stands for `a*G + b*H`.  The map `(a, b) ↦ a*G + b*H`
  into the real Ristretto group is additive and commutes with scalar
  multiplication, so every identity proved here maps to an identity of the
  real group.  All point arithmetic performed by the source lives in the span
  of `G`, `H` (every point it touches is built from `G`, `H` by `+`, `-`, `*`).
* External collaborators that the source consumes as already-correct
  primitives (SHA3-512, Ristretto point compression, the merlin transcript,
  the seeded ChaCha20 scalar stream) are gathered in the structure `Externals` and
  quantified over: the properties proved hold for every implementation of
  those interfaces.  A ChaCha20 RNG is deterministic in its seed
  (`SeedableRng::from_seed`), so its draws are modelled as a function of the
  seed and the draw index.
* Bytes are natural numbers (callers at the Python boundary guarantee the
  `< 256` range where relevant); byte strings are `List Nat`.  Fallible
  pyfunctions return `Except String`.
-/

/-- The order of the Ristretto255 / curve25519 prime-order group
(`BASEPOINT_ORDER` in curve25519-dalek). -/
def ellOrder : Nat := 2 ^ 252 + 27742317777372353535851937790883648493

instance : Fact (1 < ellOrder) := ⟨by norm_num [ellOrder]⟩

/-- Scalars mod the group order (dalek `Scalar`). -/
abbrev Scalar := ZMod ellOrder

/-- Free-module model of a Ristretto point: `(a, b)` denotes `a*G + b*H`. -/
abbrev Point := Scalar × Scalar

/-- The value generator `G` (`PedersenGens::default().B`). -/
def Gpt : Point := (1, 0)

/-- The blinding generator `H` (`PedersenGens::default().B_blinding`). -/
def Hpt : Point := (0, 1)

/-- Point addition. -/
def pt_add (p q : Point) : Point := (p.1 + q.1, p.2 + q.2)

/-- Point subtraction. -/
def pt_sub (p q : Point) : Point := (p.1 - q.1, p.2 - q.2)

/-- Scalar multiplication of a point. -/
def pt_smul (c : Scalar) (p : Point) : Point := (c * p.1, c * p.2)

/-- Little-endian value of a byte string. -/
def leVal : List Nat → Nat
  | [] => 0
  | b :: bs => b + 256 * leVal bs

/-- The `w` low little-endian base-256 digits of `n` (Rust `to_le_bytes`,
and the canonical 32-byte scalar encoding when applied to `Scalar.val`). -/
def leBytes : Nat → Nat → List Nat
  | 0, _ => []
  | w + 1, n => n % 256 :: leBytes w (n / 256)

/-- Big-endian 2-byte encoding (Rust `u16::to_be_bytes`). -/
def be16 (n : Nat) : List Nat := (leBytes 2 n).reverse

/-- Big-endian 8-byte encoding (Rust `u64::to_be_bytes`). -/
def be64 (n : Nat) : List Nat := (leBytes 8 n).reverse

/-- ASCII bytes of a string literal. -/
def strBytes (s : String) : List Nat := s.data.map Char.toNat

/-- `Scalar::from_bytes_mod_order`: little-endian value reduced mod `ℓ`. -/
def from_bytes_mod_order (bs : List Nat) : Scalar := (leVal bs : Scalar)

/-- `Scalar::from_bytes_mod_order_wide`: little-endian value of a 64-byte
string reduced mod `ℓ`. -/
def from_bytes_mod_order_wide (bs : List Nat) : Scalar := (leVal bs : Scalar)

/-- dalek `Scalar::invert`: Montgomery exponentiation by `ℓ - 2`. -/
def scalarInvert (a : Scalar) : Scalar := a ^ (ellOrder - 2)

/-- External collaborators consumed by the source and assumed correct:
SHA3-512, Ristretto compression, the merlin transcript state machine and the
seeded ChaCha20 scalar stream (deterministic in its seed). -/
structure Externals where
  sha3 : List Nat → List Nat
  compress : Point → List Nat
  T : Type
  tnew : List Nat → T
  tappend : T → List Nat → List Nat → T
  tchallenge : T → List Nat → Nat → List Nat × T
  rngScalar : List Nat → Nat → Scalar

-- ---------------------------------------------------------------------------
-- Key derivation (keypair_from_byte / keypair_from_private_key_bytes)
-- ---------------------------------------------------------------------------

/-- `keypair_from_byte`: the seed byte in the low byte of a 32-byte buffer,
reduced mod order; `public = private.invert() * H`. -/
def keypair_from_byte (byte : Nat) : Scalar × Point :=
  let priv := from_bytes_mod_order (byte :: List.replicate 31 0)
  (priv, pt_smul (scalarInvert priv) Hpt)

/-- `keypair_from_private_key_bytes`: reduce the 32 key bytes mod order;
`public = private.invert() * H`. -/
def keypair_from_private_key_bytes (key : List Nat) : Scalar × Point :=
  let priv := from_bytes_mod_order key
  (priv, pt_smul (scalarInvert priv) Hpt)

-- ---------------------------------------------------------------------------
-- Signing (hash_and_point_to_scalar / sign)
-- ---------------------------------------------------------------------------

/-- `hash_and_point_to_scalar`: wide reduction of
`SHA3-512(compressed_pub || message || point.compress())`. -/
def hash_and_point_to_scalar (E : Externals) (compressed_pub message : List Nat)
    (point : Point) : Scalar :=
  from_bytes_mod_order_wide (E.sha3 (compressed_pub ++ message ++ E.compress point))

/-- Domain tag of the deterministic nonce in `sign`. -/
def nonceDomainTag : List Nat := strBytes "tos-signer/deterministic-nonce/v1"

/-- The deterministic nonce of `sign`: wide reduction of
`SHA3-512(tag || private bytes || compressed_pub || message)`, with the
`k == 0 → k = 1` substitution. -/
def nonce_k (E : Externals) (priv : Scalar) (compressed_pub message : List Nat) : Scalar :=
  let k0 := from_bytes_mod_order_wide
    (E.sha3 (nonceDomainTag ++ leBytes 32 priv.val ++ compressed_pub ++ message))
  if k0 = 0 then 1 else k0

/-- The challenge scalar `e` computed inside `sign`. -/
def sig_e (E : Externals) (priv : Scalar) (compressed_pub message : List Nat) : Scalar :=
  hash_and_point_to_scalar E compressed_pub message
    (pt_smul (nonce_k E priv compressed_pub message) Hpt)

/-- The scalar pair `(s, e)` computed by `sign`:
`s = private.invert() * e + k`. -/
def signScalars (E : Externals) (priv : Scalar) (compressed_pub message : List Nat) :
    Scalar × Scalar :=
  (scalarInvert priv * sig_e E priv compressed_pub message
      + nonce_k E priv compressed_pub message,
   sig_e E priv compressed_pub message)

/-- `sign`: the 64-byte signature `s(32) || e(32)`, each scalar in canonical
little-endian encoding (`Scalar::as_bytes`). -/
def sign (E : Externals) (priv : Scalar) (compressed_pub message : List Nat) : List Nat :=
  leBytes 32 (signScalars E priv compressed_pub message).1.val
    ++ leBytes 32 (signScalars E priv compressed_pub message).2.val

/-- The external verifier contract of §4.2: recompute `R' = s*H - e*public`,
recompute `e'` from `(public.compress(), message, R'.compress())`, accept iff
`e' == e`. -/
def verify (E : Externals) (pub : Point) (message : List Nat) (sig : Scalar × Scalar) :
    Bool :=
  hash_and_point_to_scalar E (E.compress pub) message
      (pt_sub (pt_smul sig.1 Hpt) (pt_smul sig.2 pub)) == sig.2

-- ---------------------------------------------------------------------------
-- Python entry points around sign (sign_data / sign_with_key /
-- get_public_key_from_private)
-- ---------------------------------------------------------------------------

/-- `sign_data`: derive the keypair from the seed byte, sign `data`. -/
def sign_data (E : Externals) (data : List Nat) (seed_byte : Nat) :
    Except String (List Nat) :=
  Except.ok (sign E (keypair_from_byte seed_byte).1
    (E.compress (keypair_from_byte seed_byte).2) data)

/-- `get_public_key_from_private`: length check, then compress
`private.invert() * H`. -/
def get_public_key_from_private (E : Externals) (private_key : List Nat) :
    Except String (List Nat) :=
  if private_key.length ≠ 32 then Except.error "private_key must be 32 bytes"
  else Except.ok (E.compress (keypair_from_private_key_bytes private_key).2)

/-- `sign_with_key`: length check, derive the keypair from the raw key bytes,
sign `data`. -/
def sign_with_key (E : Externals) (data private_key : List Nat) :
    Except String (List Nat) :=
  if private_key.length ≠ 32 then Except.error "private_key must be 32 bytes"
  else Except.ok (sign E (keypair_from_private_key_bytes private_key).1
    (E.compress (keypair_from_private_key_bytes private_key).2) data)

-- ---------------------------------------------------------------------------
-- Writer – minimal big-endian binary writer
-- ---------------------------------------------------------------------------

/-- `Writer::write_u8`: push one byte. -/
def write_u8 (buf : List Nat) (v : Nat) : List Nat := buf ++ [v]

/-- `Writer::write_u16`: append the big-endian `u16` encoding. -/
def write_u16 (buf : List Nat) (v : Nat) : List Nat := buf ++ be16 v

/-- `Writer::write_u64`: append the big-endian `u64` encoding. -/
def write_u64 (buf : List Nat) (v : Nat) : List Nat := buf ++ be64 v

/-- `Writer::write_bytes`: append raw bytes. -/
def write_bytes (buf : List Nat) (b : List Nat) : List Nat := buf ++ b

/-- `Writer::write_bool`: push `1` or `0`. -/
def write_bool (buf : List Nat) (v : Bool) : List Nat :=
  buf ++ [if v then 1 else 0]

/-- `Writer::write_optional_vec_u8`: bool flag, then if present a `u16`
length (`data.len() as u16`, which wraps mod `2^16`) followed by the bytes. -/
def write_optional_vec_u8 (buf : List Nat) : Option (List Nat) → List Nat
  | none => write_bool buf false
  | some data => write_bytes (write_u16 (write_bool buf true) (data.length % 2 ^ 16)) data

-- ---------------------------------------------------------------------------
-- Transfer payload encoding (encode_transfer_payload_inner)
-- ---------------------------------------------------------------------------

/-- A dynamically typed Python value as far as the transfer-tuple extraction
code distinguishes them: a byte string, an int, or `None`. -/
inductive PyObj
  | pybytes (b : List Nat)
  | pyint (n : Nat)
  | pynone
deriving DecidableEq

/-- `tuple.get_item(_).extract::<Vec<u8>>()`: succeeds only on bytes. -/
def extract_bytes : PyObj → Except String (List Nat)
  | .pybytes b => Except.ok b
  | _ => Except.error "expected bytes"

/-- `tuple.get_item(2).extract::<u64>()`: succeeds only on an int that fits
in a `u64`. -/
def extract_u64 : PyObj → Except String Nat
  | .pyint n => if n < 2 ^ 64 then Except.ok n else Except.error "int too large for u64"
  | _ => Except.error "expected int"

/-- The `extra_data` slot: `None` maps to `none`, bytes to `some`, anything
else is an extraction error. -/
def extract_extra : PyObj → Except String (Option (List Nat))
  | .pynone => Except.ok none
  | .pybytes b => Except.ok (some b)
  | .pyint _ => Except.error "extra_data must be bytes or None"

/-- The per-transfer body of the `encode_transfer_payload_inner` loop, after
the arity check has dispatched on 3- versus 4-element tuples (a 3-tuple has
`extra_data = None`, modelled by passing `pynone` for the fourth slot):
extract and length-check asset, then destination, extract the amount and the
optional extra data, and append `asset ++ dest ++ amount ++ optional bytes`. -/
def encodeTransferFields (a0 a1 a2 a3 : PyObj) : Except String (List Nat) :=
  match extract_bytes a0 with
  | Except.error e => Except.error e
  | Except.ok asset =>
    if asset.length ≠ 32 then Except.error "asset must be 32 bytes"
    else
      match extract_bytes a1 with
      | Except.error e => Except.error e
      | Except.ok dest =>
        if dest.length ≠ 32 then Except.error "destination must be 32 bytes"
        else
          match extract_u64 a2 with
          | Except.error e => Except.error e
          | Except.ok amount =>
            match extract_extra a3 with
            | Except.error e => Except.error e
            | Except.ok extra =>
              Except.ok (write_optional_vec_u8
                (write_u64 (write_bytes (write_bytes [] asset) dest) amount) extra)

/-- One iteration of the `encode_transfer_payload_inner` loop: the tuple must
have 3 or 4 elements. -/
def encode_one_transfer : List PyObj → Except String (List Nat)
  | [a0, a1, a2] => encodeTransferFields a0 a1 a2 PyObj.pynone
  | [a0, a1, a2, a3] => encodeTransferFields a0 a1 a2 a3
  | _ => Except.error "expected 3 or 4 elements"

/-- The loop of `encode_transfer_payload_inner`: encode each transfer in
order, propagating the first error. -/
def encode_transfers_list : List (List PyObj) → Except String (List Nat)
  | [] => Except.ok []
  | t :: ts =>
    match encode_one_transfer t with
    | Except.error e => Except.error e
    | Except.ok b =>
      match encode_transfers_list ts with
      | Except.error e => Except.error e
      | Except.ok rest => Except.ok (b ++ rest)

/-- `encode_transfer_payload_inner`: reject the empty list, else write the
count (`count as u16`, wrapping mod `2^16`) followed by the encoded
transfers. -/
def encode_transfer_payload_inner (transfers : List (List PyObj)) :
    Except String (List Nat) :=
  if transfers.length = 0 then Except.error "transfers list must not be empty"
  else
    match encode_transfers_list transfers with
    | Except.error e => Except.error e
    | Except.ok body => Except.ok (write_u16 [] (transfers.length % 2 ^ 16) ++ body)

-- ---------------------------------------------------------------------------
-- Transaction frame assembly (build_signing_bytes / sign_transfer)
-- ---------------------------------------------------------------------------

/-- `build_signing_bytes`: length-check `source` and `ref_hash`, then write
`version(1) | chain_id(1) | source(32) | tx_type(1) | payload(var) | fee(8) |
fee_type(1) | nonce(8) | ref_hash(32) | ref_topo(8)`. -/
def build_signing_bytes (version chain_id : Nat) (source : List Nat)
    (tx_type_id : Nat) (encoded_payload : List Nat) (fee fee_type nonce : Nat)
    (ref_hash : List Nat) (ref_topo : Nat) : Except String (List Nat) :=
  if source.length ≠ 32 then Except.error "source must be 32 bytes"
  else if ref_hash.length ≠ 32 then Except.error "ref_hash must be 32 bytes"
  else Except.ok (write_u64 (write_bytes (write_u64 (write_u8 (write_u64
    (write_bytes (write_u8 (write_bytes (write_u8 (write_u8 [] version)
      chain_id) source) tx_type_id) encoded_payload) fee) fee_type) nonce)
        ref_hash) ref_topo)

/-- `sign_transfer`: length-check `ref_hash`, derive the keypair from the
seed byte, encode the transfer payload, assemble the frame inline with
`version = 1` and `tx_type_id = 1`, and sign the frame. -/
def sign_transfer (E : Externals) (seed_byte chain_id nonce fee fee_type : Nat)
    (ref_hash : List Nat) (ref_topo : Nat) (transfers : List (List PyObj)) :
    Except String (List Nat) :=
  if ref_hash.length ≠ 32 then Except.error "ref_hash must be 32 bytes"
  else
    match encode_transfer_payload_inner transfers with
    | Except.error e => Except.error e
    | Except.ok payload =>
      Except.ok (sign E (keypair_from_byte seed_byte).1
        (E.compress (keypair_from_byte seed_byte).2)
        (write_u64 (write_bytes (write_u64 (write_u8 (write_u64 (write_bytes
          (write_u8 (write_bytes (write_u8 (write_u8 [] 1) chain_id)
            (E.compress (keypair_from_byte seed_byte).2)) 1) payload) fee)
              fee_type) nonce) ref_hash) ref_topo))

-- ---------------------------------------------------------------------------
-- Shield crypto (chacha_seed / make_shield_crypto)
-- ---------------------------------------------------------------------------

/-- `chacha_seed`: the first 32 bytes of
`SHA3-512("tos-signer/chacha-seed/v1" || label || [a] || b.to_be_bytes())`. -/
def chacha_seed (E : Externals) (label : List Nat) (a b : Nat) : List Nat :=
  List.take 32 (E.sha3 (strBytes "tos-signer/chacha-seed/v1" ++ label ++ [a] ++ be64 b))

/-- The blinding factor `r` of `make_shield_crypto`: first scalar drawn from
the ChaCha20 stream seeded by `chacha_seed("shield-crypto", dest_seed, amount)`. -/
def shield_r (E : Externals) (dest_seed amount : Nat) : Scalar :=
  E.rngScalar (chacha_seed E (strBytes "shield-crypto") dest_seed amount) 0

/-- The proof nonce `k` of `make_shield_crypto`: second scalar drawn from the
same ChaCha20 stream. -/
def shield_k (E : Externals) (dest_seed amount : Nat) : Scalar :=
  E.rngScalar (chacha_seed E (strBytes "shield-crypto") dest_seed amount) 1

/-- The Pedersen commitment `C = amount*G + r*H` of `make_shield_crypto`. -/
def shield_commitment (E : Externals) (dest_seed amount : Nat) : Point :=
  pt_add (pt_smul (amount : Scalar) Gpt) (pt_smul (shield_r E dest_seed amount) Hpt)

/-- The receiver decryption handle `D = r * P_dest` of `make_shield_crypto`. -/
def shield_handle (E : Externals) (dest_seed amount : Nat) : Point :=
  pt_smul (shield_r E dest_seed amount) (keypair_from_byte dest_seed).2

/-- The first proof commitment `Y_H = k*H`. -/
def shield_YH (E : Externals) (dest_seed amount : Nat) : Point :=
  pt_smul (shield_k E dest_seed amount) Hpt

/-- The second proof commitment `Y_P = k * P_dest`. -/
def shield_YP (E : Externals) (dest_seed amount : Nat) : Point :=
  pt_smul (shield_k E dest_seed amount) (keypair_from_byte dest_seed).2

/-- The Fiat–Shamir challenge, as both the prover and any verifier compute
it: a fresh `merlin` transcript `"shield_commitment_proof"` absorbs the
domain separator `"shield-commitment-proof"` (label `"dom-sep"`), then the
compressed `Y_H` (label `"Y_H"`), then the compressed `Y_P` (label `"Y_P"`),
and 64 challenge bytes are extracted under label `"c"` and reduced wide mod
the group order. -/
def transcript_challenge (E : Externals) (yh yp : List Nat) : Scalar :=
  from_bytes_mod_order_wide
    ((E.tchallenge
      (E.tappend
        (E.tappend
          (E.tappend (E.tnew (strBytes "shield_commitment_proof"))
            (strBytes "dom-sep") (strBytes "shield-commitment-proof"))
          (strBytes "Y_H") yh)
        (strBytes "Y_P") yp)
      (strBytes "c") 64).1)

/-- The challenge `c` computed inside `make_shield_crypto`. -/
def shield_c (E : Externals) (dest_seed amount : Nat) : Scalar :=
  transcript_challenge E (E.compress (shield_YH E dest_seed amount))
    (E.compress (shield_YP E dest_seed amount))

/-- The response `z = c*r + k` of `make_shield_crypto`. -/
def shield_z (E : Externals) (dest_seed amount : Nat) : Scalar :=
  shield_c E dest_seed amount * shield_r E dest_seed amount
    + shield_k E dest_seed amount

/-- `make_shield_crypto`: returns
`(commitment.compress(), handle.compress(), Y_H || Y_P || z)`.  The source
additionally extracts a trailing unused `"w"` challenge from the transcript
to keep composite-transcript state in sync; the transcript is dropped right
after, so that read does not affect the returned bytes. -/
def make_shield_crypto (E : Externals) (dest_seed amount : Nat) :
    List Nat × List Nat × List Nat :=
  (E.compress (shield_commitment E dest_seed amount),
   E.compress (shield_handle E dest_seed amount),
   E.compress (shield_YH E dest_seed amount)
     ++ E.compress (shield_YP E dest_seed amount)
     ++ leBytes 32 (shield_z E dest_seed amount).val)

-- ---------------------------------------------------------------------------
-- Claim-side (spec-transcribed) definitions and concrete instances
-- ---------------------------------------------------------------------------

/-- Spec transcription of the signing algorithm of §4.2 / claim C3, written
independently from the claim text, to be compared with `sign`. -/
def signSpecC3 (E : Externals) (priv : Scalar) (compressed_pub message : List Nat) :
    List Nat :=
  let k0 := from_bytes_mod_order_wide
    (E.sha3 (strBytes "tos-signer/deterministic-nonce/v1"
      ++ leBytes 32 priv.val ++ compressed_pub ++ message))
  let k := if k0 = 0 then 1 else k0
  let bigR := pt_smul k Hpt
  let e := from_bytes_mod_order_wide
    (E.sha3 (compressed_pub ++ message ++ E.compress bigR))
  let s := scalarInvert priv * e + k
  leBytes 32 s.val ++ leBytes 32 e.val

/-- Well-formedness of a transfer tuple, as the claims state it: 32-byte
asset, 32-byte destination, `u64` amount, and an optional fourth slot that is
bytes or `None`. -/
def wf_transfer : List PyObj → Bool
  | [PyObj.pybytes a, PyObj.pybytes d, PyObj.pyint n] =>
    a.length == 32 && d.length == 32 && decide (n < 2 ^ 64)
  | [PyObj.pybytes a, PyObj.pybytes d, PyObj.pyint n, PyObj.pynone] =>
    a.length == 32 && d.length == 32 && decide (n < 2 ^ 64)
  | [PyObj.pybytes a, PyObj.pybytes d, PyObj.pyint n, PyObj.pybytes _] =>
    a.length == 32 && d.length == 32 && decide (n < 2 ^ 64)
  | _ => false

/-- A tuple slot that cannot pass the asset / destination checks: anything
that is not a byte string of length exactly 32. -/
def badSlot : PyObj → Bool
  | PyObj.pybytes b => !(b.length == 32)
  | _ => true

/-- The malformedness conditions claim C10 lists: wrong tuple arity, or an
asset or destination slot that is not a 32-byte string. -/
def bad_transfer (t : List PyObj) : Bool :=
  decide (t.length < 3) || decide (4 < t.length)
    || badSlot (t.getD 0 PyObj.pynone) || badSlot (t.getD 1 PyObj.pynone)

/-- The byte encoding of one well-formed transfer, as claim C10 states it:
asset, destination, big-endian amount, optional-bytes extra data. -/
def transfer_bytes : List PyObj → List Nat
  | [PyObj.pybytes a, PyObj.pybytes d, PyObj.pyint n] =>
    a ++ d ++ be64 n ++ [0]
  | [PyObj.pybytes a, PyObj.pybytes d, PyObj.pyint n, PyObj.pynone] =>
    a ++ d ++ be64 n ++ [0]
  | [PyObj.pybytes a, PyObj.pybytes d, PyObj.pyint n, PyObj.pybytes e] =>
    a ++ d ++ be64 n ++ [1] ++ be16 e.length ++ e
  | _ => []

/-- A concrete instantiation of the external collaborators, used by the
closed witness and counterexample theorems. -/
def dummyExternals : Externals where
  sha3 := fun _ => List.replicate 64 0
  compress := fun _ => List.replicate 32 0
  T := Unit
  tnew := fun _ => ()
  tappend := fun t _ _ => t
  tchallenge := fun t _ n => (List.replicate n 0, t)
  rngScalar := fun _ _ => 0

-- ---------------------------------------------------------------------------
-- Helper lemmas
-- ---------------------------------------------------------------------------

theorem leBytes_length (w n : Nat) : (leBytes w n).length = w := by
  induction w generalizing n with
  | zero => rfl
  | succ w ih => simp [leBytes, ih]

theorem be16_length (n : Nat) : (be16 n).length = 2 := by
  simp [be16, leBytes_length]

theorem be64_length (n : Nat) : (be64 n).length = 8 := by
  simp [be64, leBytes_length]

theorem be16_mod (n : Nat) : be16 (n % 65536) = be16 n := by
  simp only [be16, leBytes]
  norm_num
  all_goals omega

theorem encode_one_wf (t : List PyObj) (h : wf_transfer t = true) :
    encode_one_transfer t = Except.ok (transfer_bytes t) := by
  unfold wf_transfer at h
  split at h
  next a d n =>
    simp only [Bool.and_eq_true, beq_iff_eq, decide_eq_true_eq] at h
    obtain ⟨⟨ha, hd⟩, hn⟩ := h
    have hn64 : n < 18446744073709551616 := by omega
    simp [hn64, encode_one_transfer, encodeTransferFields, extract_bytes, extract_u64,
      extract_extra, transfer_bytes, write_optional_vec_u8, write_bool, write_u16,
      write_u64, write_bytes, ha, hd, hn]
  next a d n =>
    simp only [Bool.and_eq_true, beq_iff_eq, decide_eq_true_eq] at h
    obtain ⟨⟨ha, hd⟩, hn⟩ := h
    have hn64 : n < 18446744073709551616 := by omega
    simp [hn64, encode_one_transfer, encodeTransferFields, extract_bytes, extract_u64,
      extract_extra, transfer_bytes, write_optional_vec_u8, write_bool, write_u16,
      write_u64, write_bytes, ha, hd, hn]
  next a d n e =>
    simp only [Bool.and_eq_true, beq_iff_eq, decide_eq_true_eq] at h
    obtain ⟨⟨ha, hd⟩, hn⟩ := h
    have hn64 : n < 18446744073709551616 := by omega
    simp [hn64, encode_one_transfer, encodeTransferFields, extract_bytes, extract_u64,
      extract_extra, transfer_bytes, write_optional_vec_u8, write_bool, write_u16,
      write_u64, write_bytes, be16_mod, ha, hd, hn]
  next => exact absurd h (by simp)

theorem encode_list_wf (ts : List (List PyObj))
    (h : ∀ t ∈ ts, wf_transfer t = true) :
    encode_transfers_list ts = Except.ok ((ts.map transfer_bytes).flatten) := by
  induction ts with
  | nil => simp [encode_transfers_list]
  | cons u us ih =>
    have h1 : encode_one_transfer u = Except.ok (transfer_bytes u) :=
      encode_one_wf u (h u (List.mem_cons_self u us))
    have h2 := ih (fun t ht => h t (List.mem_cons_of_mem u ht))
    simp [encode_transfers_list, h1, h2]

theorem encodeTransferFields_bad (a0 a1 a2 a3 : PyObj)
    (h : badSlot a0 = true ∨ badSlot a1 = true) :
    (encodeTransferFields a0 a1 a2 a3).isOk = false := by
  rcases a0 with b0 | n0 | _
  · rcases h with h | h
    · simp only [badSlot, Bool.not_eq_true', beq_eq_false_iff_ne, ne_eq] at h
      simp [encodeTransferFields, extract_bytes, Except.isOk, Except.toBool, h]
    · by_cases hb0 : b0.length = 32
      · rcases a1 with b1 | n1 | _
        · simp only [badSlot, Bool.not_eq_true', beq_eq_false_iff_ne, ne_eq] at h
          simp [encodeTransferFields, extract_bytes, Except.isOk, Except.toBool, hb0, h]
        · simp [encodeTransferFields, extract_bytes, Except.isOk, Except.toBool, hb0]
        · simp [encodeTransferFields, extract_bytes, Except.isOk, Except.toBool, hb0]
      · simp [encodeTransferFields, extract_bytes, Except.isOk, Except.toBool, hb0]
  · simp [encodeTransferFields, extract_bytes, Except.isOk, Except.toBool]
  · simp [encodeTransferFields, extract_bytes, Except.isOk, Except.toBool]

theorem encode_one_bad (t : List PyObj) (h : bad_transfer t = true) :
    (encode_one_transfer t).isOk = false := by
  rcases t with _ | ⟨a0, _ | ⟨a1, _ | ⟨a2, _ | ⟨a3, _ | ⟨a4, t⟩⟩⟩⟩⟩
  · rfl
  · rfl
  · rfl
  · simp only [bad_transfer, List.length_cons, List.length_nil, List.getD,
      Bool.or_eq_true, decide_eq_true_eq] at h
    have hb : badSlot a0 = true ∨ badSlot a1 = true := by
      rcases h with ((h | h) | h) | h
      · omega
      · omega
      · exact Or.inl h
      · exact Or.inr h
    exact encodeTransferFields_bad a0 a1 a2 PyObj.pynone hb
  · simp only [bad_transfer, List.length_cons, List.length_nil, List.getD,
      Bool.or_eq_true, decide_eq_true_eq] at h
    have hb : badSlot a0 = true ∨ badSlot a1 = true := by
      rcases h with ((h | h) | h) | h
      · omega
      · omega
      · exact Or.inl h
      · exact Or.inr h
    exact encodeTransferFields_bad a0 a1 a2 a3 hb
  · rfl

theorem encode_list_bad (ts : List (List PyObj)) (t : List PyObj)
    (ht : t ∈ ts) (h : bad_transfer t = true) :
    (encode_transfers_list ts).isOk = false := by
  induction ts with
  | nil => cases ht
  | cons u us ih =>
    rcases List.mem_cons.mp ht with rfl | hmem
    · have hu := encode_one_bad t h
      cases he : encode_one_transfer t with
      | error e => simp [encode_transfers_list, Except.isOk, Except.toBool, he]
      | ok b => rw [he] at hu; simp [Except.isOk, Except.toBool] at hu
    · cases he : encode_one_transfer u with
      | error e => simp [encode_transfers_list, Except.isOk, Except.toBool, he]
      | ok b =>
        have hr := ih hmem
        cases hl : encode_transfers_list us with
        | error e => simp [encode_transfers_list, Except.isOk, Except.toBool, he, hl]
        | ok rest => rw [hl] at hr; simp [Except.isOk, Except.toBool] at hr

-- ---------------------------------------------------------------------------
-- Claim theorems
-- ---------------------------------------------------------------------------

theorem schnorr_identity (p e k : Scalar) :
    pt_sub (pt_smul (scalarInvert p * e + k) Hpt)
        (pt_smul e (pt_smul (scalarInvert p) Hpt))
      = pt_smul k Hpt := by
  simp only [pt_sub, pt_smul, Hpt, Prod.mk.injEq]
  constructor <;> ring

/-- C1: for every 32-byte private key whose reduction mod the group order is
nonzero and every message, the scalar pair `(s, e)` produced by `sign` over
`(private, public.compress(), message)` with `public = private.invert() * H`
passes the external verifier contract: recomputing `R' = s*H - e*public` and
`e'` from `(public.compress(), message, R'.compress())` yields `e' == e`. -/
theorem C1_sign_then_verify (E : Externals) (key message : List Nat)
    (hk : key.length = 32) (hz : from_bytes_mod_order key ≠ 0) :
    verify E (pt_smul (scalarInvert (from_bytes_mod_order key)) Hpt) message
      (signScalars E (from_bytes_mod_order key)
        (E.compress (pt_smul (scalarInvert (from_bytes_mod_order key)) Hpt))
        message) = true := by
  set p := from_bytes_mod_order key with hp
  set cpub := E.compress (pt_smul (scalarInvert p) Hpt) with hcpub
  have hR : pt_sub (pt_smul (signScalars E p cpub message).1 Hpt)
      (pt_smul (signScalars E p cpub message).2 (pt_smul (scalarInvert p) Hpt))
      = pt_smul (nonce_k E p cpub message) Hpt := by
    have := schnorr_identity p (sig_e E p cpub message) (nonce_k E p cpub message)
    simpa [signScalars] using this
  simp only [verify, hR]
  have h2 : (signScalars E p cpub message).2 = sig_e E p cpub message := rfl
  rw [h2]
  simp [sig_e]

/-- C1 witness: a concrete nonzero 32-byte key and the empty message. -/
theorem C1_sign_then_verify_witness :
    (1 :: List.replicate 31 0 : List Nat).length = 32
    ∧ from_bytes_mod_order (1 :: List.replicate 31 0) ≠ 0
    ∧ verify dummyExternals
        (pt_smul (scalarInvert (from_bytes_mod_order (1 :: List.replicate 31 0))) Hpt) []
        (signScalars dummyExternals (from_bytes_mod_order (1 :: List.replicate 31 0))
          (dummyExternals.compress
            (pt_smul (scalarInvert (from_bytes_mod_order (1 :: List.replicate 31 0))) Hpt))
          []) = true :=
  ⟨by decide, by decide,
    C1_sign_then_verify dummyExternals (1 :: List.replicate 31 0) [] (by decide) (by decide)⟩

/-- C3: the deterministic signing operation computes its nonce as the wide
reduction of `SHA3-512(domain_tag || private bytes || compressed_pub ||
message)`, substitutes `k = 1` when that reduction is zero, sets `R = k*H`,
`e = HashToScalar(public_compressed || message || R.compress())`,
`s = private.invert() * e + k`, and returns the 64-byte signature
`s(32) || e(32)` in canonical little-endian scalar encoding. -/
theorem C3_deterministic_sign_layout (E : Externals) (priv : Scalar)
    (compressed_pub message : List Nat) :
    sign E priv compressed_pub message = signSpecC3 E priv compressed_pub message
    ∧ (sign E priv compressed_pub message).length = 64 := by
  constructor
  · simp [sign, signSpecC3, signScalars, sig_e, nonce_k, hash_and_point_to_scalar,
      nonceDomainTag]
  · simp [sign, leBytes_length]

/-- C4 counterexample: the all-zero 32-byte private key, whose reduction mod
the group order is the additive identity, does NOT make key derivation fail:
`get_public_key_from_private` returns `Ok`, contradicting the claimed
`ZeroScalarError`. -/
theorem C4_zero_key_counterexample :
    (get_public_key_from_private dummyExternals (List.replicate 32 0)).isOk = true := by
  rfl

/-- C4 amended: key derivation never reports a zero-scalar error.  For every
32-byte input — including the all-zero key — `get_public_key_from_private`
returns `Ok` of the compressed point `(reduced key).invert() * H` (dalek
inversion of zero is the zero scalar, so the zero key yields the identity
point); the only error is a length mismatch. -/
theorem C4_no_zero_scalar_error (E : Externals) (key : List Nat)
    (hk : key.length = 32) :
    get_public_key_from_private E key
      = Except.ok (E.compress (pt_smul (scalarInvert (from_bytes_mod_order key)) Hpt)) := by
  simp [get_public_key_from_private, keypair_from_private_key_bytes, hk]

/-- C4 amended witness: the all-zero key. -/
theorem C4_no_zero_scalar_error_witness :
    (List.replicate 32 0 : List Nat).length = 32
    ∧ get_public_key_from_private dummyExternals (List.replicate 32 0)
        = Except.ok (dummyExternals.compress
            (pt_smul (scalarInvert (from_bytes_mod_order (List.replicate 32 0))) Hpt)) :=
  ⟨by decide, C4_no_zero_scalar_error dummyExternals (List.replicate 32 0) (by decide)⟩

/-- C5 counterexample: writing optional bytes of length `65536` (which does
not fit the declared `u16` width) produces no error of any kind — the length
field is silently wrapped mod `2^16` to `0x0000` while all `65536` data bytes
are appended, contradicting the claimed `LengthError`. -/
theorem C5_wrapped_length_counterexample :
    write_optional_vec_u8 [] (some (List.replicate 65536 7))
      = [1, 0, 0] ++ List.replicate 65536 7 := by
  rw [write_optional_vec_u8, List.length_replicate]
  norm_num [write_bytes, write_u16, write_bool, be16, leBytes]

/-- C5 amended: every writer operation appends exactly its declared width
(`u8`/`bool`: 1, `u16`: 2, `u64`: 8, raw bytes: their length, optional bytes:
1 when absent and `3 + length` when present), so the output length is the sum
of the declared widths; but no `LengthError` exists: an optional byte string
longer than `65535` has its `u16` length field silently wrapped mod `2^16`
rather than rejected. -/
theorem C5_writer_widths (buf data : List Nat) (v : Nat) (b : Bool) :
    (write_u8 buf v).length = buf.length + 1
    ∧ (write_u16 buf v).length = buf.length + 2
    ∧ (write_u64 buf v).length = buf.length + 8
    ∧ (write_bool buf b).length = buf.length + 1
    ∧ (write_bytes buf data).length = buf.length + data.length
    ∧ write_optional_vec_u8 buf none = buf ++ [0]
    ∧ write_optional_vec_u8 buf (some data)
        = buf ++ [1] ++ be16 (data.length % 2 ^ 16) ++ data
    ∧ (write_optional_vec_u8 buf (some data)).length = buf.length + 3 + data.length := by
  refine ⟨?_, ?_, ?_, ?_, ?_, ?_, ?_, ?_⟩
  · simp [write_u8]
  · simp [write_u16, be16_length]
  · simp [write_u64, be64_length]
  · simp [write_bool]
  · simp [write_bytes]
  · simp [write_optional_vec_u8, write_bool]
  · simp [write_optional_vec_u8, write_bool, write_u16, write_bytes]
  · simp [write_optional_vec_u8, write_bool, write_u16, write_bytes, be16_length]
    omega

/-- C2: for every destination seed byte and every `u64` amount,
`make_shield_crypto` outputs `(commitment, handle, Y_H || Y_P || z)` such
that, with the challenge `c` recomputed by a transcript that absorbs the
domain separator `"shield-commitment-proof"`, then `Y_H`, then `Y_P`, in that
order, and then extracts 64 challenge bytes under label `"c"` reduced wide
mod the group order, both verifier equations hold:
`z*H == Y_H + c*(commitment - amount*G)` and
`z*recipient_public == Y_P + c*handle`. -/
theorem C2_shield_proof_verifies (E : Externals) (dest_seed amount : Nat)
    (hd : dest_seed < 256) (ha : amount < 2 ^ 64) :
    make_shield_crypto E dest_seed amount
      = (E.compress (shield_commitment E dest_seed amount),
         E.compress (shield_handle E dest_seed amount),
         E.compress (shield_YH E dest_seed amount)
           ++ E.compress (shield_YP E dest_seed amount)
           ++ leBytes 32 (shield_z E dest_seed amount).val)
    ∧ pt_smul (shield_z E dest_seed amount) Hpt
        = pt_add (shield_YH E dest_seed amount)
            (pt_smul
              (transcript_challenge E (E.compress (shield_YH E dest_seed amount))
                (E.compress (shield_YP E dest_seed amount)))
              (pt_sub (shield_commitment E dest_seed amount)
                (pt_smul (amount : Scalar) Gpt)))
    ∧ pt_smul (shield_z E dest_seed amount) (keypair_from_byte dest_seed).2
        = pt_add (shield_YP E dest_seed amount)
            (pt_smul
              (transcript_challenge E (E.compress (shield_YH E dest_seed amount))
                (E.compress (shield_YP E dest_seed amount)))
              (shield_handle E dest_seed amount)) := by
  refine ⟨rfl, ?_, ?_⟩
  · show pt_smul (shield_z E dest_seed amount) Hpt
      = pt_add (shield_YH E dest_seed amount)
          (pt_smul (shield_c E dest_seed amount)
            (pt_sub (shield_commitment E dest_seed amount)
              (pt_smul (amount : Scalar) Gpt)))
    simp only [shield_z, shield_YH, shield_commitment, pt_smul, pt_add, pt_sub,
      Gpt, Hpt, Prod.mk.injEq]
    constructor <;> ring
  · show pt_smul (shield_z E dest_seed amount) (keypair_from_byte dest_seed).2
      = pt_add (shield_YP E dest_seed amount)
          (pt_smul (shield_c E dest_seed amount) (shield_handle E dest_seed amount))
    simp only [shield_z, shield_YP, shield_handle, keypair_from_byte, pt_smul,
      pt_add, Hpt, Prod.mk.injEq]
    constructor <;> ring

/-- C2 witness: destination seed byte `5`, amount `7`. -/
theorem C2_shield_proof_verifies_witness :
    (5 : Nat) < 256 ∧ (7 : Nat) < 2 ^ 64
    ∧ (make_shield_crypto dummyExternals 5 7
        = (dummyExternals.compress (shield_commitment dummyExternals 5 7),
           dummyExternals.compress (shield_handle dummyExternals 5 7),
           dummyExternals.compress (shield_YH dummyExternals 5 7)
             ++ dummyExternals.compress (shield_YP dummyExternals 5 7)
             ++ leBytes 32 (shield_z dummyExternals 5 7).val)
      ∧ pt_smul (shield_z dummyExternals 5 7) Hpt
          = pt_add (shield_YH dummyExternals 5 7)
              (pt_smul
                (transcript_challenge dummyExternals
                  (dummyExternals.compress (shield_YH dummyExternals 5 7))
                  (dummyExternals.compress (shield_YP dummyExternals 5 7)))
                (pt_sub (shield_commitment dummyExternals 5 7)
                  (pt_smul ((7 : Nat) : Scalar) Gpt)))
      ∧ pt_smul (shield_z dummyExternals 5 7) (keypair_from_byte 5).2
          = pt_add (shield_YP dummyExternals 5 7)
              (pt_smul
                (transcript_challenge dummyExternals
                  (dummyExternals.compress (shield_YH dummyExternals 5 7))
                  (dummyExternals.compress (shield_YP dummyExternals 5 7)))
                (shield_handle dummyExternals 5 7))) :=
  ⟨by decide, by decide,
    C2_shield_proof_verifies dummyExternals 5 7 (by decide) (by decide)⟩

/-- C6: for in-range header fields and 32-byte `source` and `ref_hash`,
`build_signing_bytes` returns exactly
`version(1) | chain_id(1) | source(32) | tx_type(1) | payload(var) | fee(8,BE)
| fee_asset_tag(1) | nonce(8,BE) | ref_block_hash(32) | ref_topo_height(8,BE)`
of total length `92 + payload.length`; when `source` or `ref_hash` is not
exactly 32 bytes it returns an error instead. -/
theorem C6_signing_frame_layout (version chain_id tx_type_id fee fee_type
    nonce ref_topo : Nat) (source payload ref_hash : List Nat)
    (hs : source.length = 32) (hr : ref_hash.length = 32) :
    build_signing_bytes version chain_id source tx_type_id payload fee fee_type
        nonce ref_hash ref_topo
      = Except.ok ([version, chain_id] ++ source ++ [tx_type_id] ++ payload
          ++ be64 fee ++ [fee_type] ++ be64 nonce ++ ref_hash ++ be64 ref_topo)
    ∧ ([version, chain_id] ++ source ++ [tx_type_id] ++ payload ++ be64 fee
          ++ [fee_type] ++ be64 nonce ++ ref_hash ++ be64 ref_topo).length
        = 92 + payload.length
    ∧ (∀ src2 ref2 : List Nat, src2.length ≠ 32 ∨ ref2.length ≠ 32 →
        (build_signing_bytes version chain_id src2 tx_type_id payload fee
          fee_type nonce ref2 ref_topo).isOk = false) := by
  refine ⟨?_, ?_, ?_⟩
  · simp [build_signing_bytes, hs, hr, write_u8, write_u64, write_bytes]
  · simp [be64_length, hs, hr]
    omega
  · intro src2 ref2 h
    rcases h with h | h
    · simp [build_signing_bytes, Except.isOk, Except.toBool, h]
    · by_cases h2 : src2.length = 32
      · simp [build_signing_bytes, Except.isOk, Except.toBool, h2, h]
      · simp [build_signing_bytes, Except.isOk, Except.toBool, h2]

/-- C6 witness: concrete 32-byte source and ref hash. -/
theorem C6_signing_frame_layout_witness :
    (List.replicate 32 1 : List Nat).length = 32
    ∧ (List.replicate 32 4 : List Nat).length = 32
    ∧ (build_signing_bytes 1 0 (List.replicate 32 1) 1 [9, 9] 1000 0 7
          (List.replicate 32 4) 0
        = Except.ok ([1, 0] ++ List.replicate 32 1 ++ [1] ++ [9, 9]
            ++ be64 1000 ++ [0] ++ be64 7 ++ List.replicate 32 4 ++ be64 0)
      ∧ ([1, 0] ++ List.replicate 32 1 ++ [1] ++ [9, 9] ++ be64 1000 ++ [0]
            ++ be64 7 ++ List.replicate 32 4 ++ be64 0).length
          = 92 + ([9, 9] : List Nat).length
      ∧ (∀ src2 ref2 : List Nat, src2.length ≠ 32 ∨ ref2.length ≠ 32 →
          (build_signing_bytes 1 0 src2 1 [9, 9] 1000 0 7 ref2 0).isOk = false)) :=
  ⟨by decide, by decide,
    C6_signing_frame_layout 1 0 1 1000 0 7 0 (List.replicate 32 1) [9, 9]
      (List.replicate 32 4) (by decide) (by decide)⟩

/-- C7: the all-in-one signing path equals the composition of its stages:
`sign_transfer` returns the same signature as deriving the keypair from the
seed byte, encoding the transfers via `encode_transfer_payload`, assembling
the frame via `build_signing_bytes` with `version = 1`, the derived
compressed public key as source and `tx_type_id = 1`, and signing that exact
frame with the deterministic signer `sign_data`. -/
theorem C7_sign_transfer_composition (E : Externals)
    (seed_byte chain_id nonce fee fee_type ref_topo : Nat)
    (ref_hash : List Nat) (transfers : List (List PyObj))
    (hr : ref_hash.length = 32)
    (hc : (E.compress (keypair_from_byte seed_byte).2).length = 32) :
    sign_transfer E seed_byte chain_id nonce fee fee_type ref_hash ref_topo transfers
      = Except.bind (encode_transfer_payload_inner transfers) (fun payload =>
          Except.bind (build_signing_bytes 1 chain_id
              (E.compress (keypair_from_byte seed_byte).2) 1 payload fee fee_type
              nonce ref_hash ref_topo) (fun frame =>
            sign_data E frame seed_byte)) := by
  cases hp : encode_transfer_payload_inner transfers with
  | error e => simp [sign_transfer, hr, hp, Except.bind]
  | ok payload =>
    simp [sign_transfer, hr, hp, Except.bind, build_signing_bytes, hc, sign_data,
      write_u8, write_u64, write_bytes]

/-- C7 witness: seed byte `0x42` and a concrete single-transfer list. -/
theorem C7_sign_transfer_composition_witness :
    (List.replicate 32 4 : List Nat).length = 32
    ∧ (dummyExternals.compress (keypair_from_byte 66).2).length = 32
    ∧ sign_transfer dummyExternals 66 0 7 1000 0 (List.replicate 32 4) 0
          [[PyObj.pybytes (List.replicate 32 2), PyObj.pybytes (List.replicate 32 3),
            PyObj.pyint 500000000]]
        = Except.bind (encode_transfer_payload_inner
              [[PyObj.pybytes (List.replicate 32 2), PyObj.pybytes (List.replicate 32 3),
                PyObj.pyint 500000000]]) (fun payload =>
            Except.bind (build_signing_bytes 1 0
                (dummyExternals.compress (keypair_from_byte 66).2) 1 payload 1000 0
                7 (List.replicate 32 4) 0) (fun frame =>
              sign_data dummyExternals frame 66)) :=
  ⟨by decide, by decide,
    C7_sign_transfer_composition dummyExternals 66 0 7 1000 0 0 (List.replicate 32 4)
      [[PyObj.pybytes (List.replicate 32 2), PyObj.pybytes (List.replicate 32 3),
        PyObj.pyint 500000000]] (by decide) (by decide)⟩

/-- C8 counterexample: the exposed signing entry point `sign_data` is a pure
function routed through the deterministic nonce derivation — at the concrete
input `(message = "Hello, world!", seed = 0x42)` two invocations with
identical inputs produce the identical signature, and the result is exactly
the deterministic `sign`, refuting the claimed randomized production mode. -/
theorem C8_deterministic_counterexample :
    sign_data dummyExternals (strBytes "Hello, world!") 66
      = sign_data dummyExternals (strBytes "Hello, world!") 66
    ∧ sign_data dummyExternals (strBytes "Hello, world!") 66
      = Except.ok (sign dummyExternals (keypair_from_byte 66).1
          (dummyExternals.compress (keypair_from_byte 66).2)
          (strBytes "Hello, world!")) :=
  ⟨rfl, rfl⟩

/-- C8 amended: no randomized production signing mode exists in this module —
every signing entry point (`sign_data`, `sign_with_key`, and `sign_transfer`
via `sign`) obtains its nonce from the deterministic hash-based derivation in
`sign`, so signing is a deterministic function of its inputs and repeated
invocations with identical inputs always produce identical signatures. -/
theorem C8_all_paths_deterministic (E : Externals) (data key : List Nat)
    (seed_byte : Nat) (hk : key.length = 32) :
    sign_data E data seed_byte
      = Except.ok (sign E (keypair_from_byte seed_byte).1
          (E.compress (keypair_from_byte seed_byte).2) data)
    ∧ sign_with_key E data key
      = Except.ok (sign E (keypair_from_private_key_bytes key).1
          (E.compress (keypair_from_private_key_bytes key).2) data) :=
  ⟨rfl, by simp [sign_with_key, hk]⟩

/-- C8 amended witness: a concrete message, seed byte and 32-byte key. -/
theorem C8_all_paths_deterministic_witness :
    (List.replicate 32 9 : List Nat).length = 32
    ∧ (sign_data dummyExternals [1, 2] 66
        = Except.ok (sign dummyExternals (keypair_from_byte 66).1
            (dummyExternals.compress (keypair_from_byte 66).2) [1, 2])
      ∧ sign_with_key dummyExternals [1, 2] (List.replicate 32 9)
        = Except.ok (sign dummyExternals
            (keypair_from_private_key_bytes (List.replicate 32 9)).1
            (dummyExternals.compress
              (keypair_from_private_key_bytes (List.replicate 32 9)).2) [1, 2])) :=
  ⟨by decide,
    C8_all_paths_deterministic dummyExternals [1, 2] (List.replicate 32 9) 66 (by decide)⟩

/-- C9: `make_shield_crypto` is a deterministic function of `(dest_seed,
amount)`: the blinding factor `r` and the proof nonce `k` are the first two
draws of the ChaCha20 stream whose 32-byte seed is the truncated SHA3-512
hash of the fixed labels together with `dest_seed` and `amount`, so any two
calls with the same `(dest_seed, amount)` reuse the same `r` and `k` and
return byte-identical `(commitment, receiver_handle, proof)` triples. -/
theorem C9_shield_crypto_deterministic (E : Externals) (d a d2 a2 : Nat)
    (hd : d2 = d) (ha : a2 = a) :
    shield_r E d a
      = E.rngScalar (List.take 32 (E.sha3 (strBytes "tos-signer/chacha-seed/v1"
          ++ strBytes "shield-crypto" ++ [d] ++ be64 a))) 0
    ∧ shield_k E d a
      = E.rngScalar (List.take 32 (E.sha3 (strBytes "tos-signer/chacha-seed/v1"
          ++ strBytes "shield-crypto" ++ [d] ++ be64 a))) 1
    ∧ make_shield_crypto E d2 a2 = make_shield_crypto E d a := by
  subst hd; subst ha
  exact ⟨rfl, rfl, rfl⟩

/-- C9 witness: destination seed byte `5`, amount `7`. -/
theorem C9_shield_crypto_deterministic_witness :
    (5 : Nat) = 5 ∧ (7 : Nat) = 7
    ∧ (shield_r dummyExternals 5 7
        = dummyExternals.rngScalar (List.take 32 (dummyExternals.sha3
            (strBytes "tos-signer/chacha-seed/v1" ++ strBytes "shield-crypto"
              ++ [5] ++ be64 7))) 0
      ∧ shield_k dummyExternals 5 7
        = dummyExternals.rngScalar (List.take 32 (dummyExternals.sha3
            (strBytes "tos-signer/chacha-seed/v1" ++ strBytes "shield-crypto"
              ++ [5] ++ be64 7))) 1
      ∧ make_shield_crypto dummyExternals 5 7 = make_shield_crypto dummyExternals 5 7) :=
  ⟨rfl, rfl, C9_shield_crypto_deterministic dummyExternals 5 7 5 7 rfl rfl⟩

/-- C10: `encode_transfer_payload` rejects the empty transfer list; for every
non-empty list of well-formed transfers it returns the `u16` count
(big-endian) followed, for each transfer in order, by the 32-byte asset, the
32-byte destination, the big-endian `u64` amount and the optional-bytes
encoding of `extra_data`; and a transfer of wrong tuple arity or whose asset
or destination is not exactly 32 bytes makes the whole operation return an
error. -/
theorem C10_transfer_payload_encoding (ts : List (List PyObj))
    (h1 : ts ≠ []) (h2 : ∀ t ∈ ts, wf_transfer t = true) :
    encode_transfer_payload_inner ts
      = Except.ok (be16 ts.length ++ (ts.map transfer_bytes).flatten)
    ∧ (encode_transfer_payload_inner ([] : List (List PyObj))).isOk = false
    ∧ (∀ us (t : List PyObj), t ∈ us → bad_transfer t = true →
        (encode_transfer_payload_inner us).isOk = false) := by
  refine ⟨?_, by simp [encode_transfer_payload_inner, Except.isOk, Except.toBool], ?_⟩
  · have hn : ¬ ts.length = 0 := by simpa using h1
    simp [encode_transfer_payload_inner, hn, encode_list_wf ts h2, write_u16, be16_mod]
  · intro us t ht hb
    have hbad := encode_list_bad us t ht hb
    by_cases h0 : us.length = 0
    · simp [encode_transfer_payload_inner, h0, Except.isOk, Except.toBool]
    · cases he : encode_transfers_list us with
      | error e =>
        simp [encode_transfer_payload_inner, h0, he, Except.isOk, Except.toBool]
      | ok b => rw [he] at hbad; simp [Except.isOk, Except.toBool] at hbad

/-- C10 witness: a concrete single well-formed transfer. -/
theorem C10_transfer_payload_encoding_witness :
    ([[PyObj.pybytes (List.replicate 32 2), PyObj.pybytes (List.replicate 32 3),
        PyObj.pyint 500000000]] : List (List PyObj)) ≠ []
    ∧ (∀ t ∈ ([[PyObj.pybytes (List.replicate 32 2),
          PyObj.pybytes (List.replicate 32 3), PyObj.pyint 500000000]] :
            List (List PyObj)), wf_transfer t = true)
    ∧ (encode_transfer_payload_inner
          [[PyObj.pybytes (List.replicate 32 2), PyObj.pybytes (List.replicate 32 3),
            PyObj.pyint 500000000]]
        = Except.ok (be16 1
            ++ (([[PyObj.pybytes (List.replicate 32 2),
                  PyObj.pybytes (List.replicate 32 3),
                  PyObj.pyint 500000000]] : List (List PyObj)).map
                    transfer_bytes).flatten)
      ∧ (encode_transfer_payload_inner ([] : List (List PyObj))).isOk = false
      ∧ (∀ us (t : List PyObj), t ∈ us → bad_transfer t = true →
          (encode_transfer_payload_inner us).isOk = false)) :=
  ⟨by decide, by decide,
    C10_transfer_payload_encoding
      [[PyObj.pybytes (List.replicate 32 2), PyObj.pybytes (List.replicate 32 3),
        PyObj.pyint 500000000]] (by decide) (by decide)⟩
